import Mathlib

/-!
Verification of the CTA Bus-O-Tron arrival-urgency display engine
(`ctaBusOTron.ino`): the urgency-to-blink mapper, the blink-phase
evaluator, the slot scheduler, the MQTT message router and the render
loop, shallowly embedded in Lean from the C++ source.
-/

namespace BusOTron

/-! ## Urgency-to-blink mapper (LEDController) -/

/-- Blink interval constants of `LEDController`, in milliseconds. -/
def BLINK_SUPER_FAST : Int := 180

def BLINK_FAST : Int := 360

def BLINK_MEDIUM : Int := 600

def BLINK_SLOW : Int := 900

/-- `LEDController::getBlinkInterval`: milliseconds for the blink
interval, `-1` for solid on, `0` for off.  `eta` is a C `int`. -/
def getBlinkInterval (eta : Int) : Int :=
  if eta < 90 then BLINK_SUPER_FAST
  else if eta < 300 then BLINK_FAST
  else if eta < 600 then BLINK_MEDIUM
  else if eta < 900 then BLINK_SLOW
  else if eta < 5000 then -1
  else 0

/-- The blink policy an ETA is mapped to, as the spec describes it:
off, blinking at a given interval, or solid. -/
inductive BlinkPolicy where
  | Off : BlinkPolicy
  | Blink (intervalMs : Nat) : BlinkPolicy
  | Solid : BlinkPolicy
deriving DecidableEq, Repr

open BlinkPolicy

/-- The classifier realized by `LEDController::updateArrowBlink`: the
`eta <= 0` early exit, then the case split on `getBlinkInterval`
(`0` means off, `-1` means solid, a positive value is the blink
interval). -/
def classify (eta : Int) : BlinkPolicy :=
  if eta ≤ 0 then Off
  else
    let b := getBlinkInterval eta
    if b = 0 then Off
    else if b = -1 then Solid
    else Blink b.toNat

/-- The classifier exactly as the specification words it, for
comparison with `classify` (half-open bands with thresholds
90, 300, 600, 900, 5000). -/
def classifySpec (eta : Int) : BlinkPolicy :=
  if eta ≤ 0 then Off
  else if eta < 90 then Blink 180
  else if eta < 300 then Blink 360
  else if eta < 600 then Blink 600
  else if eta < 900 then Blink 900
  else if eta < 5000 then Solid
  else Off

/-! ## Blink-phase evaluator -/

/-- The blink-phase evaluator: `Off` is always off, `Solid` always on,
and `Blink i` is on during the first half of each interval, the phase
test `(currentTime % blinkInterval) < (blinkInterval / 2)` of
`LEDController::updateArrowBlink`. -/
def isOn (p : BlinkPolicy) (now : Nat) : Bool :=
  match p with
  | Off => false
  | Solid => true
  | Blink i => now % i < i / 2

/-! ## Slot scheduler (DisplayManager) -/

def DISPLAY_CYCLE_LENGTH : Nat := 60000

def SLOT_DURATION : Nat := 10000

/-- The slot computation of `DisplayManager::update`:
`(currentTime % DISPLAY_CYCLE_LENGTH) / SLOT_DURATION`. -/
def activeSlot (now : Nat) : Nat :=
  (now % DISPLAY_CYCLE_LENGTH) / SLOT_DURATION

/-! ## Data model: routes and system state -/

inductive RouteType where
  | BUS_ROUTE : RouteType
  | RAIL_ROUTE : RouteType
deriving DecidableEq, Repr

inductive LightColor where
  | AMBER_LEFT : LightColor
  | AMBER_RIGHT : LightColor
  | RED_LIGHT : LightColor
deriving DecidableEq, Repr

inductive ArrowDirection where
  | ARROW_LEFT : ArrowDirection
  | ARROW_RIGHT : ArrowDirection
  | NO_ARROW : ArrowDirection
deriving DecidableEq, Repr

/-- The `Route` struct: identity, MQTT topic, display attributes,
slot assignment and the mutable `eta` in seconds. -/
structure Route where
  name : String
  topic : String
  rtype : RouteType
  color : LightColor
  arrow : ArrowDirection
  displaySlot : Nat
  eta : Int
deriving DecidableEq, Repr

/-- The `Route` constructor: all display attributes fixed, `eta`
initialized to 0. -/
def mkRoute (n t : String) (rt : RouteType) (c : LightColor)
    (a : ArrowDirection) (slot : Nat) : Route :=
  { name := n, topic := t, rtype := rt, color := c, arrow := a,
    displaySlot := slot, eta := 0 }

/-- The route registry of `BusOTron`, exactly the six `Route`
constructions of the source array. -/
def routesInit : List Route :=
  [ mkRoute "Downtown Express" "CTApredictions/BUS/dtwnEXP"
      .BUS_ROUTE .AMBER_LEFT .ARROW_LEFT 0,
    mkRoute "Route 77 West" "CTApredictions/BUS/1151/77"
      .BUS_ROUTE .AMBER_LEFT .ARROW_RIGHT 1,
    mkRoute "Brown Line South" "CTApredictions/RAIL/30232"
      .RAIL_ROUTE .RED_LIGHT .ARROW_LEFT 2,
    mkRoute "Brown Line North" "CTApredictions/RAIL/30231"
      .RAIL_ROUTE .RED_LIGHT .ARROW_RIGHT 3,
    mkRoute "Route 151 South" "CTApredictions/BUS/1074/151"
      .BUS_ROUTE .AMBER_RIGHT .ARROW_LEFT 4,
    mkRoute "Route 151 North" "CTApredictions/BUS/1151/151"
      .BUS_ROUTE .AMBER_RIGHT .ARROW_RIGHT 5 ]

/-- The mutable state of `BusOTron` read by the render loop:
the two system booleans and the route registry. -/
structure SysState where
  systemEnabled : Bool
  alertActive : Bool
  routes : List Route
deriving DecidableEq, Repr

/-- `BusOTron` construction: `systemEnabled(true)`,
`alertActive(false)`, the six routes with `eta = 0`. -/
def initialState : SysState :=
  { systemEnabled := true, alertActive := false, routes := routesInit }

def enableTopic : String := "devices/busotron/enable"

def alertTopic : String := "CTApredictions/alert/active"

/-! ## Payload decoding (`handleMQTTMessage` preamble and
`String::toInt`) -/

/-- The truncation of `handleMQTTMessage`: a payload shorter than the
16-byte buffer is copied whole, otherwise only the first 15 bytes
are kept. -/
def truncateBytes (payload : List Char) : List Char :=
  if payload.length < 16 then payload else payload.take 15

/-- Characters skipped by `atol` (C `isspace`). -/
def isSpaceChar (c : Char) : Bool :=
  c = ' ' || c = '\t' || c = '\n' || c = '\x0b' || c = '\x0c' || c = '\r'

/-- Accumulate the value of the longest leading run of decimal
digits, as `atol` does. -/
def decDigitsVal : List Char → Nat → Nat
  | [], acc => acc
  | c :: cs, acc =>
      if c.isDigit then decDigitsVal cs (10 * acc + (c.toNat - 48))
      else acc

def LONG_MAX : Int := 2147483647

def LONG_MIN : Int := -2147483648

/-- Clamp to the 32-bit `long` range, as `strtol` does on overflow. -/
def clampLong (n : Int) : Int :=
  if n > LONG_MAX then LONG_MAX else if n < LONG_MIN then LONG_MIN else n

/-- `atol` after the leading whitespace has been skipped: an optional
sign, then the longest leading digit run (none parses to 0), clamped
to the `long` range. -/
def atolAfterSpace : List Char → Int
  | [] => 0
  | c :: rest =>
      if c = '-' then clampLong (-(decDigitsVal rest 0 : Int))
      else if c = '+' then clampLong (decDigitsVal rest 0 : Int)
      else clampLong (decDigitsVal (c :: rest) 0 : Int)

/-- `String::toInt` of the Arduino core, which is C `atol`: skip
leading whitespace, take an optional sign, read the longest leading
digit run (none parses to 0), clamp to the `long` range. -/
def atolModel (cs : List Char) : Int :=
  atolAfterSpace (cs.dropWhile isSpaceChar)

/-- The parse rule exactly as the specification words it, for
comparison with the code: a non-empty all-digit payload (a
non-negative decimal integer, no sign, no decimal point). -/
def isNonNegDecimal (cs : List Char) : Bool :=
  !cs.isEmpty && cs.all (fun c => c.isDigit)

/-! ## Message router (`BusOTron::handleMQTTMessage`) -/

/-- The route-update loop of `handleMQTTMessage`: scan the registry
in order and overwrite the `eta` of the first route whose topic
matches, leaving every other entry alone (`return` after the first
match, mirrored by stopping the recursion). -/
def updateFirstEta : List Route → String → Int → List Route
  | [], _, _ => []
  | r :: rs, t, e =>
      if r.topic = t then { r with eta := e } :: rs
      else r :: updateFirstEta rs t e

/-- `BusOTron::handleMQTTMessage`: truncate and decode the payload,
then dispatch on the topic — enable channel, alert channel, or a
route ETA update via `String(message).toInt()`. -/
def handleMQTTMessage (s : SysState) (topic : String)
    (payload : List Char) : SysState :=
  let message := truncateBytes payload
  if topic = enableTopic then
    { s with systemEnabled := message == "ON".data }
  else if topic = alertTopic then
    { s with alertActive := message == "ON".data }
  else
    { s with routes := updateFirstEta s.routes topic (atolModel message) }

/-! ## LED outputs (`LEDController`) and the render loop -/

/-- The six GPIO outputs the sketch drives: the two arrows, the two
amber route indicators, the red route indicator, and the tall
status light. -/
structure LedState where
  arrowRight : Bool
  arrowLeft : Bool
  amberRight : Bool
  amberLeft : Bool
  red : Bool
  tall : Bool
deriving DecidableEq, Repr

/-- `LEDController::turnOffAll`: all five route indicator outputs
low, the status light untouched. -/
def turnOffAll (L : LedState) : LedState :=
  { L with arrowRight := false, arrowLeft := false,
           amberRight := false, amberLeft := false, red := false }

/-- `LEDController::setStatusLight`. -/
def setStatusLight (L : LedState) (b : Bool) : LedState :=
  { L with tall := b }

/-- `LEDController::setColorLight`: drive the selected color pin. -/
def setColorLight (L : LedState) (c : LightColor) (b : Bool) : LedState :=
  match c with
  | .AMBER_LEFT => { L with amberLeft := b }
  | .AMBER_RIGHT => { L with amberRight := b }
  | .RED_LIGHT => { L with red := b }

/-- `LEDController::setArrow`: drive the selected arrow pin and force
the opposite arrow pin low; `NO_ARROW` forces both low. -/
def setArrow (L : LedState) (d : ArrowDirection) (b : Bool) : LedState :=
  match d with
  | .ARROW_LEFT => { L with arrowLeft := b, arrowRight := false }
  | .ARROW_RIGHT => { L with arrowRight := b, arrowLeft := false }
  | .NO_ARROW => { L with arrowLeft := false, arrowRight := false }

/-- `LEDController::updateArrowBlink`: off on `eta <= 0`, then the
case split on `getBlinkInterval` (`0` off, `-1` solid on, otherwise
on during the first half of each blink interval). -/
def updateArrowBlink (L : LedState) (d : ArrowDirection) (eta : Int)
    (now : Nat) : LedState :=
  if eta ≤ 0 then setArrow L d false
  else
    let b := getBlinkInterval eta
    if b = 0 then setArrow L d false
    else if b = -1 then setArrow L d true
    else setArrow L d (decide (now % b.toNat < b.toNat / 2))

/-- The registry scan of `DisplayManager::update`: the first route
whose `displaySlot` equals the current slot. -/
def findSlot : List Route → Nat → Option Route
  | [], _ => none
  | r :: rs, slot =>
      if r.displaySlot = slot then some r else findSlot rs slot

/-- The tail of `DisplayManager::update`: clear all route LEDs and,
if the route of the active slot exists and has `eta > 0`, light its
color and animate its arrow. -/
def renderRoute (L : LedState) (now : Nat) : Option Route → LedState
  | some r =>
      if r.eta > 0 then
        updateArrowBlink (setColorLight (turnOffAll L) r.color true)
          r.arrow r.eta now
      else turnOffAll L
  | none => turnOffAll L

/-- `DisplayManager::update`: when disabled turn all route LEDs off
and return; otherwise render the route owning the active slot. -/
def displayUpdate (L : LedState) (routes : List Route) (now : Nat)
    (enabled : Bool) : LedState :=
  if !enabled then turnOffAll L
  else renderRoute L now (findSlot routes (activeSlot now))

/-- One pass of `BusOTron::loop` over the outputs: the display update
followed by `setStatusLight(alertActive)`. -/
def loopTick (L : LedState) (s : SysState) (now : Nat) : LedState :=
  setStatusLight (displayUpdate L s.routes now s.systemEnabled)
    s.alertActive

/-- The output pin a color indicator drives. -/
def colorPin (L : LedState) (c : LightColor) : Bool :=
  match c with
  | .AMBER_LEFT => L.amberLeft
  | .AMBER_RIGHT => L.amberRight
  | .RED_LIGHT => L.red

/-- The output pin an arrow direction drives (`NO_ARROW` drives
none). -/
def arrowPin (L : LedState) (d : ArrowDirection) : Bool :=
  match d with
  | .ARROW_LEFT => L.arrowLeft
  | .ARROW_RIGHT => L.arrowRight
  | .NO_ARROW => false

/-- All five route indicator outputs are low. -/
def routeLedsOff (L : LedState) : Prop :=
  L.arrowRight = false ∧ L.arrowLeft = false ∧ L.amberRight = false ∧
    L.amberLeft = false ∧ L.red = false

instance (L : LedState) : Decidable (routeLedsOff L) := by
  unfold routeLedsOff; infer_instance

end BusOTron

namespace BusOTron

open BlinkPolicy

/-! ## Theorems about the mapper, evaluator and scheduler -/

/-- **C1.** The urgency classifier maps every ETA to a blink policy by
the exact half-open thresholds of the spec (`eta <= 0` off,
`(0,90)` blink 180, `[90,300)` blink 360, `[300,600)` blink 600,
`[600,900)` blink 900, `[900,5000)` solid, `>= 5000` off); the
boundary values 90 and 89 land as stated and every `eta >= 5000` is
off. -/
theorem classify_matches_thresholds :
    (∀ eta : Int, classify eta = classifySpec eta) ∧
    classify 90 = Blink 360 ∧ classify 89 = Blink 180 ∧
    (∀ eta : Int, 5000 ≤ eta → classify eta = Off) := by
  have h : ∀ eta : Int, classify eta = classifySpec eta := by
    intro eta
    unfold classify classifySpec getBlinkInterval
    unfold BLINK_SUPER_FAST BLINK_FAST BLINK_MEDIUM BLINK_SLOW
    split_ifs <;> rfl
  refine ⟨h, by decide, by decide, ?_⟩
  intro eta hle
  rw [h eta]
  unfold classifySpec
  split_ifs <;> first | rfl | omega

/-- Closed witness for C1: concrete boundary instance `eta = 5000`
falls in the off band. -/
theorem classify_matches_thresholds_witness :
    classify 5000 = Off :=
  classify_matches_thresholds.2.2.2 5000 (by decide)

/-- **C2.** For every blink interval `I > 0` and timestamp `now`, the
blink-phase evaluator is on iff `(now % I) < I / 2` (integer
division), `Off` is always off, `Solid` always on, and blinking is
periodic with period `I`. -/
theorem blink_phase_evaluator (I now : Nat) (hI : 0 < I) :
    (isOn (Blink I) now = true ↔ now % I < I / 2) ∧
    isOn Off now = false ∧
    isOn Solid now = true ∧
    isOn (Blink I) now = isOn (Blink I) (now + I) := by
  refine ⟨?_, rfl, rfl, ?_⟩
  · simp [isOn]
  · simp [isOn, Nat.add_mod_right]

/-- Closed witness for C2 at `I = 360`, `now = 15000`: the blink
phase repeats one interval later. -/
theorem blink_phase_evaluator_witness :
    isOn (Blink 360) 15000 = isOn (Blink 360) (15000 + 360) :=
  (blink_phase_evaluator 360 15000 (by decide)).2.2.2

/-- **C3.** The active display slot is
`(now % 60000) / 10000` (integer division), always lies in `0..5`,
and is periodic with period 60000 ms, independently of any previous
call. -/
theorem active_slot_schedule (now : Nat) :
    activeSlot now = (now % 60000) / 10000 ∧
    activeSlot now < 6 ∧
    activeSlot (now + 60000) = activeSlot now := by
  refine ⟨rfl, ?_, ?_⟩
  · unfold activeSlot DISPLAY_CYCLE_LENGTH SLOT_DURATION
    omega
  · unfold activeSlot DISPLAY_CYCLE_LENGTH SLOT_DURATION
    rw [Nat.add_mod_right]

end BusOTron

namespace BusOTron

/-! ## Theorems about the message router -/

/-- A decimal digit is not whitespace. -/
lemma isDigit_not_space (c : Char) (h : c.isDigit = true) :
    isSpaceChar c = false := by
  unfold isSpaceChar
  simp only [Bool.or_eq_false_iff, decide_eq_false_iff_not]
  refine ⟨⟨⟨⟨⟨?_, ?_⟩, ?_⟩, ?_⟩, ?_⟩, ?_⟩ <;> rintro rfl <;>
    exact absurd h (by decide)

/-- `decDigitsVal` returns its accumulator at a non-digit head. -/
lemma decDigitsVal_not_digit (c : Char) (cs : List Char) (acc : Nat)
    (h : c.isDigit = false) : decDigitsVal (c :: cs) acc = acc := by
  simp [decDigitsVal, h]

/-- `clampLong` is the identity on the `long` range. -/
lemma clampLong_of_mem (n : Int) (h1 : n ≤ LONG_MAX) (h2 : LONG_MIN ≤ n) :
    clampLong n = n := by
  unfold clampLong
  rw [if_neg (by omega), if_neg (by omega)]

/-- A payload containing no digit character parses to 0 under
`atolAfterSpace`. -/
lemma atolAfterSpace_no_digits (cs : List Char)
    (h : ∀ c ∈ cs, c.isDigit = false) : atolAfterSpace cs = 0 := by
  cases cs with
  | nil => rfl
  | cons c rest =>
    have hc : c.isDigit = false := h c (List.mem_cons_self c rest)
    have hrest0 : decDigitsVal rest 0 = 0 := by
      cases rest with
      | nil => rfl
      | cons d ds =>
        exact decDigitsVal_not_digit d ds 0
          (h d (List.mem_cons_of_mem c (List.mem_cons_self d ds)))
    simp only [atolAfterSpace]
    split_ifs with h1 h2
    · rw [hrest0]; decide
    · rw [hrest0]; decide
    · rw [decDigitsVal_not_digit c rest 0 hc]; decide

/-- A payload containing no digit character parses to 0 under
`atolModel`. -/
lemma atolModel_no_digits (cs : List Char)
    (h : ∀ c ∈ cs, c.isDigit = false) : atolModel cs = 0 := by
  unfold atolModel
  exact atolAfterSpace_no_digits _ (fun c hc =>
    h c ((List.dropWhile_sublist isSpaceChar).subset hc))

/-- An all-digit payload whose value fits in a `long` parses to
exactly its decimal value under `atolModel`. -/
lemma atolModel_all_digits (cs : List Char)
    (hne : cs ≠ []) (hdig : ∀ c ∈ cs, c.isDigit = true)
    (hbound : (decDigitsVal cs 0 : Int) ≤ LONG_MAX) :
    atolModel cs = (decDigitsVal cs 0 : Int) := by
  cases cs with
  | nil => exact absurd rfl hne
  | cons c rest =>
    have hc : c.isDigit = true := hdig c (List.mem_cons_self c rest)
    have hcm : c ≠ '-' := by rintro rfl; exact absurd hc (by decide)
    have hcp : c ≠ '+' := by rintro rfl; exact absurd hc (by decide)
    unfold atolModel
    rw [List.dropWhile_cons, if_neg (by simp [isDigit_not_space c hc])]
    simp only [atolAfterSpace]
    rw [if_neg hcm, if_neg hcp]
    exact clampLong_of_mem _ hbound (by unfold LONG_MIN; omega)

/-- The registry scan either finds no matching topic and returns the
list unchanged, or overwrites exactly the `eta` of the first route
whose topic matches, leaving every other entry untouched. -/
lemma updateFirstEta_spec (rs : List Route) (t : String) (e : Int) :
    ((∀ r ∈ rs, r.topic ≠ t) ∧ updateFirstEta rs t e = rs) ∨
    (∃ i, ∃ h : i < rs.length, rs[i].topic = t ∧
      updateFirstEta rs t e = rs.set i { rs[i] with eta := e }) := by
  induction rs with
  | nil => exact Or.inl ⟨by simp, rfl⟩
  | cons r rs ih =>
    by_cases h : r.topic = t
    · refine Or.inr ⟨0, by simp, h, ?_⟩
      simp [updateFirstEta, h]
    · rcases ih with ⟨hall, heq⟩ | ⟨i, hlt, htop, heq⟩
      · refine Or.inl ⟨?_, ?_⟩
        · intro x hx
          rcases List.mem_cons.mp hx with rfl | hx
          · exact h
          · exact hall x hx
        · simp [updateFirstEta, h, heq]
      · refine Or.inr ⟨i + 1, by simpa using Nat.succ_lt_succ hlt, ?_, ?_⟩
        · simpa using htop
        · simpa [updateFirstEta, h] using heq

/-- **C6.** A message on the enable channel sets `systemEnabled` to
true exactly when the truncated decoded payload equals `"ON"`, and
false otherwise; a message on the alert channel does the same for
`alertActive`. -/
theorem control_channel_semantics (s : SysState) (payload : List Char) :
    (handleMQTTMessage s enableTopic payload).systemEnabled
      = (truncateBytes payload == "ON".data) ∧
    (handleMQTTMessage s alertTopic payload).alertActive
      = (truncateBytes payload == "ON".data) := by
  constructor
  · simp [handleMQTTMessage]
  · simp [handleMQTTMessage, alertTopic, enableTopic]

/-- **C5.** Each router call mutates at most one piece of state: on
the enable topic only `systemEnabled`, on the alert topic only
`alertActive`, otherwise at most the `eta` of the first route whose
topic matches (every other entry and both booleans untouched), and a
message matching no control channel and no route leaves the whole
state unchanged. -/
theorem router_frame_effect (s : SysState) (topic : String)
    (payload : List Char) :
    (topic = enableTopic →
      (handleMQTTMessage s topic payload).alertActive = s.alertActive ∧
      (handleMQTTMessage s topic payload).routes = s.routes) ∧
    (topic ≠ enableTopic → topic = alertTopic →
      (handleMQTTMessage s topic payload).systemEnabled = s.systemEnabled ∧
      (handleMQTTMessage s topic payload).routes = s.routes) ∧
    (topic ≠ enableTopic → topic ≠ alertTopic →
      (handleMQTTMessage s topic payload).systemEnabled = s.systemEnabled ∧
      (handleMQTTMessage s topic payload).alertActive = s.alertActive ∧
      (((∀ r ∈ s.routes, r.topic ≠ topic) ∧
          handleMQTTMessage s topic payload = s) ∨
        (∃ i, ∃ h : i < s.routes.length, s.routes[i].topic = topic ∧
          (handleMQTTMessage s topic payload).routes
            = s.routes.set i { s.routes[i] with
                eta := atolModel (truncateBytes payload) }))) := by
  refine ⟨?_, ?_, ?_⟩
  · rintro rfl
    constructor <;> simp [handleMQTTMessage]
  · rintro hn rfl
    constructor <;> simp [handleMQTTMessage, hn]
  · intro hn hn2
    have hmsg : handleMQTTMessage s topic payload
        = { s with routes :=
              updateFirstEta s.routes topic (atolModel (truncateBytes payload)) } := by
      simp [handleMQTTMessage, hn, hn2]
    rw [hmsg]
    refine ⟨rfl, rfl, ?_⟩
    rcases updateFirstEta_spec s.routes topic (atolModel (truncateBytes payload))
      with ⟨hall, heq⟩ | ⟨i, hlt, htop, heq⟩
    · exact Or.inl ⟨hall, by rw [heq]⟩
    · exact Or.inr ⟨i, hlt, htop, heq⟩

/-- Closed witness for C5: an enable-channel message leaves the
registry untouched. -/
theorem router_frame_effect_witness :
    (handleMQTTMessage initialState enableTopic ("ON".data)).routes
      = initialState.routes :=
  ((router_frame_effect initialState enableTopic ("ON".data)).1 rfl).2

end BusOTron

namespace BusOTron

open BlinkPolicy

/-! ## Theorems about ETA payload parsing (C4) -/

/-- **C4 (counterexample).** The payload `"-5"` is not a non-negative
decimal integer, yet the router stores `eta = -5` for the matching
route instead of the claimed sentinel 0. -/
theorem route_eta_parse_cex :
    isNonNegDecimal (truncateBytes ("-5".data)) = false ∧
    ((handleMQTTMessage initialState "CTApredictions/BUS/dtwnEXP"
        ("-5".data)).routes[0]?.map Route.eta) = some (-5) := by
  constructor
  · decide
  · decide

/-- **C4 (amended).** On a non-control topic the router overwrites the
first matching route `eta` wholesale with the `atol` value of the
truncated payload; a payload that is a plain non-negative decimal
integer (fitting in a `long`) is stored verbatim, and a payload
containing no digit at all parses to the sentinel 0 — but signed
payloads store the signed `atol` value rather than 0. Parsing is a
total function, so it never crashes. -/
theorem route_eta_parse (s : SysState) (topic : String) (payload : List Char)
    (hne : topic ≠ enableTopic) (hna : topic ≠ alertTopic) :
    (handleMQTTMessage s topic payload).routes
      = updateFirstEta s.routes topic (atolModel (truncateBytes payload)) ∧
    (∀ cs : List Char, isNonNegDecimal cs = true →
        (decDigitsVal cs 0 : Int) ≤ LONG_MAX →
        atolModel cs = (decDigitsVal cs 0 : Int)) ∧
    (∀ cs : List Char, (∀ c ∈ cs, c.isDigit = false) → atolModel cs = 0) := by
  refine ⟨?_, ?_, ?_⟩
  · simp [handleMQTTMessage, hne, hna]
  · intro cs hnn hb
    have h1 : cs ≠ [] := by
      intro hnil; subst hnil; simp [isNonNegDecimal] at hnn
    have h2 : ∀ c ∈ cs, c.isDigit = true := by
      intro c hc
      rcases (Bool.and_eq_true _ _).mp hnn with ⟨-, hall⟩
      exact List.all_eq_true.mp hall c hc
    exact atolModel_all_digits cs h1 h2 hb
  · exact atolModel_no_digits

/-- Closed witness for the amended C4: the spec scenario payload
`"240"` on the Route 77 topic is stored via the parse path. -/
theorem route_eta_parse_witness :
    (handleMQTTMessage initialState "CTApredictions/BUS/1151/77"
        ("240".data)).routes
      = updateFirstEta initialState.routes "CTApredictions/BUS/1151/77"
          (atolModel (truncateBytes ("240".data))) :=
  (route_eta_parse initialState "CTApredictions/BUS/1151/77" ("240".data)
    (by decide) (by decide)).1

/-! ## Theorems about the render loop -/

/-- `setArrow` leaves every color pin alone. -/
lemma colorPin_setArrow (L : LedState) (d : ArrowDirection) (b : Bool)
    (c : LightColor) : colorPin (setArrow L d b) c = colorPin L c := by
  cases d <;> cases c <;> rfl

/-- `setStatusLight` leaves every color pin alone. -/
lemma colorPin_setStatusLight (L : LedState) (b : Bool) (c : LightColor) :
    colorPin (setStatusLight L b) c = colorPin L c := by
  cases c <;> rfl

/-- `setColorLight` drives exactly the selected color pin. -/
lemma colorPin_setColorLight_self (L : LedState) (c : LightColor) (b : Bool) :
    colorPin (setColorLight L c b) c = b := by
  cases c <;> rfl

/-- `setStatusLight` leaves every arrow pin alone. -/
lemma arrowPin_setStatusLight (L : LedState) (b : Bool) (d : ArrowDirection) :
    arrowPin (setStatusLight L b) d = arrowPin L d := by
  cases d <;> rfl

/-- `setArrow` drives exactly the selected arrow pin, for a real
direction. -/
lemma arrowPin_setArrow_self (L : LedState) (d : ArrowDirection) (b : Bool)
    (hd : d ≠ ArrowDirection.NO_ARROW) :
    arrowPin (setArrow L d b) d = b := by
  cases d with
  | ARROW_LEFT => rfl
  | ARROW_RIGHT => rfl
  | NO_ARROW => exact absurd rfl hd

/-- `updateArrowBlink` drives the arrow with exactly the blink state
`isOn (classify eta) now`: the case analysis of the source function
coincides with the classifier composed with the phase evaluator. -/
lemma updateArrowBlink_eq_setArrow (L : LedState) (d : ArrowDirection)
    (eta : Int) (now : Nat) :
    updateArrowBlink L d eta now = setArrow L d (isOn (classify eta) now) := by
  simp only [updateArrowBlink, classify]
  split_ifs <;> rfl

/-- **C7.** On a render tick with the system disabled, every route
indicator output is emitted off regardless of any route `eta`, while
the status output still equals `alertActive`. -/
theorem disabled_tick_all_off (L : LedState) (s : SysState) (now : Nat)
    (h : s.systemEnabled = false) :
    routeLedsOff (loopTick L s now) ∧
    (loopTick L s now).tall = s.alertActive := by
  unfold loopTick displayUpdate
  rw [h]
  simp [turnOffAll, setStatusLight, routeLedsOff]

/-- Closed witness for C7: a disabled tick from an all-on LED state
with an alert active. -/
theorem disabled_tick_all_off_witness :
    routeLedsOff (loopTick
      { arrowRight := true, arrowLeft := true, amberRight := true,
        amberLeft := true, red := true, tall := false }
      { systemEnabled := false, alertActive := true, routes := routesInit } 5) ∧
    (loopTick
      { arrowRight := true, arrowLeft := true, amberRight := true,
        amberLeft := true, red := true, tall := false }
      { systemEnabled := false, alertActive := true, routes := routesInit } 5).tall
      = ({ systemEnabled := false, alertActive := true,
           routes := routesInit } : SysState).alertActive :=
  disabled_tick_all_off _ _ 5 rfl

/-- **C8.** On an enabled render tick: when the route owning the
active slot exists and has `eta > 0`, its color pin is emitted on and
its arrow pin carries `isOn (classify eta) now`; when no route owns
the slot or the owning route has `eta <= 0`, all route indicators are
emitted off. -/
theorem enabled_tick_output (L : LedState) (s : SysState) (now : Nat)
    (h : s.systemEnabled = true) :
    (∀ r : Route, findSlot s.routes (activeSlot now) = some r → 0 < r.eta →
      colorPin (loopTick L s now) r.color = true ∧
      (r.arrow ≠ ArrowDirection.NO_ARROW →
        arrowPin (loopTick L s now) r.arrow = isOn (classify r.eta) now)) ∧
    ((findSlot s.routes (activeSlot now) = none ∨
        ∃ r : Route, findSlot s.routes (activeSlot now) = some r ∧ r.eta ≤ 0) →
      routeLedsOff (loopTick L s now)) := by
  unfold loopTick displayUpdate
  rw [h]
  rw [if_neg (show ¬((!true) = true) by decide)]
  cases hf : findSlot s.routes (activeSlot now) with
  | none =>
    refine ⟨?_, ?_⟩
    · intro r hr; cases hr
    · intro; simp [renderRoute, turnOffAll, setStatusLight, routeLedsOff]
  | some r =>
    simp only [renderRoute]
    by_cases hp : r.eta > 0
    · rw [if_pos hp]
      refine ⟨?_, ?_⟩
      · intro r' hr' _hpos
        injection hr' with hrr; subst hrr
        rw [updateArrowBlink_eq_setArrow]
        refine ⟨?_, ?_⟩
        · rw [colorPin_setStatusLight, colorPin_setArrow,
            colorPin_setColorLight_self]
        · intro hd
          rw [arrowPin_setStatusLight, arrowPin_setArrow_self _ _ _ hd]
      · rintro (hnone | ⟨r', hr', hle⟩)
        · cases hnone
        · injection hr' with hrr; subst hrr; omega
    · rw [if_neg hp]
      refine ⟨?_, ?_⟩
      · intro r' hr' hpos
        injection hr' with hrr; subst hrr; exact absurd hpos hp
      · intro; simp [renderRoute, turnOffAll, setStatusLight, routeLedsOff]

/-- Closed witness for C8: the spec scenario — Route 77 in slot 1
with `eta = 240` at `now = 15000` lights its amber color pin. -/
theorem enabled_tick_output_witness :
    colorPin (loopTick
      { arrowRight := false, arrowLeft := false, amberRight := false,
        amberLeft := false, red := false, tall := false }
      { systemEnabled := true, alertActive := false,
        routes := [{ name := "Route 77 West",
                     topic := "CTApredictions/BUS/1151/77",
                     rtype := RouteType.BUS_ROUTE,
                     color := LightColor.AMBER_LEFT,
                     arrow := ArrowDirection.ARROW_RIGHT,
                     displaySlot := 1, eta := 240 }] } 15000)
      LightColor.AMBER_LEFT = true :=
  ((enabled_tick_output _ _ 15000 rfl).1
    { name := "Route 77 West", topic := "CTApredictions/BUS/1151/77",
      rtype := RouteType.BUS_ROUTE, color := LightColor.AMBER_LEFT,
      arrow := ArrowDirection.ARROW_RIGHT, displaySlot := 1, eta := 240 }
    (by decide) (by decide)).1

/-- **C9.** The emitted LED output is a deterministic function of the
timestamp and the readable state: it does not depend on the previous
LED output, so a second render call with the same `now` and the same
state reproduces the same output. -/
theorem render_deterministic (L1 L2 : LedState) (s : SysState) (now : Nat) :
    loopTick L1 s now = loopTick L2 s now ∧
    loopTick (loopTick L1 s now) s now = loopTick L1 s now := by
  have key : ∀ A B : LedState, loopTick A s now = loopTick B s now := by
    intro A B
    unfold loopTick displayUpdate
    cases hE : s.systemEnabled with
    | false => rfl
    | true =>
      cases hf : findSlot s.routes (activeSlot now) with
      | none => rfl
      | some r =>
        simp only [renderRoute]
        by_cases hp : r.eta > 0
        · rw [if_pos hp, if_pos hp, updateArrowBlink_eq_setArrow,
            updateArrowBlink_eq_setArrow]
          cases r.color <;> cases r.arrow <;>
            simp [setArrow, setColorLight, turnOffAll, setStatusLight]
        · rw [if_neg hp, if_neg hp]
          rfl
  exact ⟨key L1 L2, key (loopTick L1 s now) L1⟩

/-- **C10.** `setArrow` keeps the two arrow outputs mutually
exclusive: a real direction forces the opposite pin off, `NO_ARROW`
forces both off, and consequently every render tick leaves at most
one arrow pin lit. -/
theorem arrow_mutual_exclusion :
    (∀ (L : LedState) (d : ArrowDirection) (b : Bool),
        (setArrow L d b).arrowLeft = false ∨
        (setArrow L d b).arrowRight = false) ∧
    (∀ (L : LedState) (b : Bool),
        (setArrow L ArrowDirection.NO_ARROW b).arrowLeft = false ∧
        (setArrow L ArrowDirection.NO_ARROW b).arrowRight = false) ∧
    (∀ (L : LedState) (b : Bool),
        (setArrow L ArrowDirection.ARROW_LEFT b).arrowRight = false ∧
        (setArrow L ArrowDirection.ARROW_RIGHT b).arrowLeft = false) ∧
    (∀ (L : LedState) (s : SysState) (now : Nat),
        (loopTick L s now).arrowLeft = false ∨
        (loopTick L s now).arrowRight = false) := by
  refine ⟨?_, ?_, ?_, ?_⟩
  · intro L d b
    cases d with
    | ARROW_LEFT => exact Or.inr rfl
    | ARROW_RIGHT => exact Or.inl rfl
    | NO_ARROW => exact Or.inl rfl
  · intro L b; exact ⟨rfl, rfl⟩
  · intro L b; exact ⟨rfl, rfl⟩
  · intro L s now
    unfold loopTick displayUpdate
    cases hE : s.systemEnabled with
    | false => exact Or.inl rfl
    | true =>
      cases hf : findSlot s.routes (activeSlot now) with
      | none => exact Or.inl rfl
      | some r =>
        simp only [renderRoute]
        by_cases hp : r.eta > 0
        · rw [if_pos hp, updateArrowBlink_eq_setArrow]
          cases r.arrow with
          | ARROW_LEFT => exact Or.inr rfl
          | ARROW_RIGHT => exact Or.inl rfl
          | NO_ARROW => exact Or.inl rfl
        · rw [if_neg hp]; exact Or.inl rfl

end BusOTron
